import Mathlib

/-!
Verification of the CometBFT supervisor module
(`apps/src/lib/node/ledger/tendermint_node.rs`).

The Rust source is shallowly embedded below: pure functions become Lean
functions over `List Nat` (bytes), `List Char` (strings) and `Nat`/`Int`
(machine integers, with explicit bounds where overflow matters); the
asynchronous supervisor becomes a pure function over an environment that
records the outcome of each external effect, returning the run result
together with the trace of effectful steps in program order.
-/

namespace TendermintNode

/-- The module's error taxonomy, mirroring `enum Error` in the source.
I/O errors and engine errors are represented by their display strings;
`TendermintPath` carries the raw non-Unicode OS string bytes. -/
inductive Error where
  | Init (desc : String)
  | LoadConfig (desc : String)
  | OpenWriteConfig (desc : String)
  | ConfigSerializeToml (desc : String)
  | WriteConfig (desc : String)
  | StartUp (desc : String)
  | Runtime (msg : String)
  | RollBack (msg : String)
  | TendermintPath (raw : List Nat)
deriving DecidableEq

/-- Rust `core::num::ParseIntError` kinds reachable from `str::parse::<u64>`. -/
inductive ParseIntError where
  | empty
  | invalidDigit
  | posOverflow
deriving DecidableEq

/-- The display string of a `ParseIntError`, as produced by `e.to_string()`. -/
def parseIntErrorDesc : ParseIntError → String
  | .empty => "cannot parse integer from empty string"
  | .invalidDigit => "invalid digit found in string"
  | .posOverflow => "number too large to fit in target type"

/-- Rust `u8::is_ascii_whitespace`: space, tab, newline, form feed, carriage
return. -/
def isAsciiWhitespace (c : Char) : Bool :=
  decide (c = ' ' ∨ c = '\t' ∨ c = '\n' ∨ c = Char.ofNat 12 ∨ c = '\r')

/-- Rust `str::split_once`: split at the first occurrence of `pat`,
returning the text before and after it. -/
def splitOnce (s pat : List Char) : Option (List Char × List Char) :=
  if pat.isPrefixOf s then some ([], s.drop pat.length)
  else
    match s with
    | [] => none
    | c :: cs => (splitOnce cs pat).map (fun p => (c :: p.1, p.2))

/-- Rust `split_ascii_whitespace(...).next()`: skip leading ASCII whitespace and
return the first maximal run of non-whitespace characters, if any. -/
def firstToken (s : List Char) : Option (List Char) :=
  let t := (s.dropWhile isAsciiWhitespace).takeWhile (fun c => !isAsciiWhitespace c)
  if t.isEmpty then none else some t

/-- Digit-consuming loop of `u64::from_str`: Rust checks each character is a
decimal digit and checks for overflow of the 64-bit accumulator at every
step (checked multiply-by-10 then checked add). -/
def parseU64Core : List Char → Nat → Except ParseIntError Nat
  | [], acc => .ok acc
  | c :: cs, acc =>
    if c.isDigit then
      let acc' := acc * 10 + (c.toNat - 48)
      if acc' < 2 ^ 64 then parseU64Core cs acc' else .error .posOverflow
    else .error .invalidDigit

/-- Rust `str::parse::<u64>`: empty input is an error, an optional leading
`+` sign is allowed (but a bare sign is an invalid digit), then the digit
loop runs with overflow checking. -/
def parseU64 (s : List Char) : Except ParseIntError Nat :=
  match s with
  | [] => .error .empty
  | c :: cs =>
    if c = '+' then
      match cs with
      | [] => .error .invalidDigit
      | _ => parseU64Core cs 0
    else parseU64Core (c :: cs) 0

/-- The mathematical value of a decimal digit string (most significant digit
first). This is the specification-side meaning of a decimal token. -/
def decimalValue (ds : List Char) : Nat :=
  ds.foldl (fun a c => a * 10 + (c.toNat - 48)) 0

/-- The pinned CometBFT rollback stdout phrase searched by `rollback`. -/
def rollbackPhrase : List Char := "Rolled back state to height".data

/-- The error message used by `rollback` both when the phrase is absent and
when no token follows the phrase. -/
def missingHeightMsg : String :=
  "Missing expected block height in tendermint stdout message"

/-- The parsing step of `rollback` (source lines 198-215): locate the
phrase with `split_once`, take the first whitespace-separated token of the
remainder, and parse it as a `u64` block height. -/
def rollback_parse (stdout : List Char) : Except Error Nat :=
  match splitOnce stdout rollbackPhrase with
  | none => .error (.RollBack missingHeightMsg)
  | some (_, right) =>
    match firstToken right with
    | none => .error (.RollBack missingHeightMsg)
    | some tok =>
      match parseU64 tok with
      | .error e => .error (.RollBack (parseIntErrorDesc e))
      | .ok n => .ok n

/-- Rust `std::string::FromUtf8Error` data: the number of valid bytes before
the error and the length of the invalid sequence (`None` when the input
ended in the middle of a sequence). -/
structure Utf8Error where
  validUpTo : Nat
  errorLen : Option Nat
deriving DecidableEq

/-- The display string of a `FromUtf8Error` (via its inner `Utf8Error`). -/
def utf8ErrorDesc (e : Utf8Error) : String :=
  match e.errorLen with
  | some n =>
      "invalid utf-8 sequence of " ++ Nat.repr n ++ " bytes from index "
        ++ Nat.repr e.validUpTo
  | none => "incomplete utf-8 byte sequence from index " ++ Nat.repr e.validUpTo

/-- A UTF-8 continuation byte, `0x80..=0xBF`. -/
def isCont (b : Nat) : Bool := decide (0x80 ≤ b ∧ b ≤ 0xBF)

/-- Strict UTF-8 validation and decoding as performed by Rust's
`String::from_utf8` (RFC 3629: overlong encodings, surrogates and
code points above U+10FFFF are rejected). `idx` is the index of the
current sequence start in the original byte stream. -/
def utf8DecodeAux (bytes : List Nat) (idx : Nat) : Except Utf8Error (List Char)
  :=
  match bytes with
  | [] => .ok []
  | b :: rest =>
    if b < 0x80 then
      (utf8DecodeAux rest (idx + 1)).map (fun cs => Char.ofNat b :: cs)
    else if 0xC2 ≤ b ∧ b ≤ 0xDF then
      match rest with
      | [] => .error ⟨idx, none⟩
      | b1 :: rest1 =>
        if isCont b1 then
          (utf8DecodeAux rest1 (idx + 2)).map
            (fun cs => Char.ofNat ((b % 0x20) * 0x40 + b1 % 0x40) :: cs)
        else .error ⟨idx, some 1⟩
    else if 0xE0 ≤ b ∧ b ≤ 0xEF then
      match rest with
      | [] => .error ⟨idx, none⟩
      | b1 :: rest1 =>
        if (if b = 0xE0 then decide (0xA0 ≤ b1 ∧ b1 ≤ 0xBF)
            else if b = 0xED then decide (0x80 ≤ b1 ∧ b1 ≤ 0x9F)
            else isCont b1) then
          match rest1 with
          | [] => .error ⟨idx, none⟩
          | b2 :: rest2 =>
            if isCont b2 then
              (utf8DecodeAux rest2 (idx + 3)).map
                (fun cs =>
                  Char.ofNat
                    ((b % 0x10) * 0x1000 + (b1 % 0x40) * 0x40 + b2 % 0x40)
                    :: cs)
            else .error ⟨idx, some 2⟩
        else .error ⟨idx, some 1⟩
    else if 0xF0 ≤ b ∧ b ≤ 0xF4 then
      match rest with
      | [] => .error ⟨idx, none⟩
      | b1 :: rest1 =>
        if (if b = 0xF0 then decide (0x90 ≤ b1 ∧ b1 ≤ 0xBF)
            else if b = 0xF4 then decide (0x80 ≤ b1 ∧ b1 ≤ 0x8F)
            else isCont b1) then
          match rest1 with
          | [] => .error ⟨idx, none⟩
          | b2 :: rest2 =>
            if isCont b2 then
              match rest2 with
              | [] => .error ⟨idx, none⟩
              | b3 :: rest3 =>
                if isCont b3 then
                  (utf8DecodeAux rest3 (idx + 4)).map
                    (fun cs =>
                      Char.ofNat
                        ((b % 8) * 0x40000 + (b1 % 0x40) * 0x1000
                          + (b2 % 0x40) * 0x40 + b3 % 0x40)
                        :: cs)
                else .error ⟨idx, some 3⟩
            else .error ⟨idx, some 2⟩
        else .error ⟨idx, some 1⟩
    else .error ⟨idx, some 1⟩

/-- Rust `String::from_utf8` on captured stdout bytes. -/
def utf8Decode (bytes : List Nat) : Except Utf8Error (List Char) :=
  utf8DecodeAux bytes 0

/-- The stdout-processing tail of `rollback` (source lines 196-215): first
convert the captured bytes to a string, mapping a conversion failure to
`Error::RollBack` with the failure's description, then run the parsing
step. -/
def rollback_stdout (out : List Nat) : Except Error Nat :=
  match utf8Decode out with
  | .error e => .error (.RollBack (utf8ErrorDesc e))
  | .ok chars => rollback_parse chars

/-- The standard base64 alphabet used by Rust's `base64::encode`
(RFC 4648, with padding). -/
def b64Alphabet : List Char :=
  "ABCDEFGHIJKLMNOPQRSTUVWXYZabcdefghijklmnopqrstuvwxyz0123456789+/".data

/-- The alphabet character for a 6-bit group. -/
def b64ch (i : Nat) : Char := b64Alphabet.getD i 'A'

/-- The 6-bit group for an alphabet character, if any. -/
def b64dec (c : Char) : Option Nat :=
  let j := b64Alphabet.indexOf c
  if j < 64 then some j else none

/-- Rust `base64::encode` (standard alphabet, padded): bytes are taken in
groups of three; a final group of two or one bytes is padded with one or
two `=` characters. -/
def b64encode : List Nat → List Char
  | a :: b :: c :: rest =>
    b64ch (a / 4) :: b64ch ((a % 4) * 16 + b / 16)
      :: b64ch ((b % 16) * 4 + c / 64) :: b64ch (c % 64) :: b64encode rest
  | [a, b] =>
    [b64ch (a / 4), b64ch ((a % 4) * 16 + b / 16), b64ch ((b % 16) * 4), '=']
  | [a] => [b64ch (a / 4), b64ch ((a % 4) * 16), '=', '=']
  | [] => []

/-- Base64 decoding of padded input in 4-character groups (inverse of
`b64encode` on its image). -/
def b64decode : List Char → Option (List Nat)
  | [] => some []
  | c1 :: c2 :: c3 :: c4 :: rest =>
    match b64dec c1, b64dec c2 with
    | some n1, some n2 =>
      if c3 = '=' ∧ c4 = '=' ∧ rest = [] then some [n1 * 4 + n2 / 16]
      else
        match b64dec c3 with
        | some n3 =>
          if c4 = '=' ∧ rest = [] then
            some [n1 * 4 + n2 / 16, (n2 % 16) * 16 + n3 / 4]
          else
            match b64dec c4 with
            | some n4 =>
              (b64decode rest).map
                (fun l =>
                  (n1 * 4 + n2 / 16) :: ((n2 % 16) * 16 + n3 / 4)
                    :: ((n3 % 4) * 64 + n4) :: l)
            | none => none
        | none => none
    | _, _ => none
  | _ => none

/-! ### SHA-256

Modelled from the external `sha2` crate: the FIPS 180-4 SHA-256 algorithm,
over byte lists, with 32-bit words as `Nat` reduced modulo `2 ^ 32`. -/

/-- Right rotation of a 32-bit word. -/
def rotr32 (n w : Nat) : Nat :=
  ((w >>> n) ||| (w <<< (32 - n))) % 2 ^ 32

/-- The SHA-256 round constants (FIPS 180-4, in decimal). -/
def shaK : List Nat :=
  [1116352408, 1899447441, 3049323471, 3921009573,
   961987163, 1508970993, 2453635748, 2870763221,
   3624381080, 310598401, 607225278, 1426881987,
   1925078388, 2162078206, 2614888103, 3248222580,
   3835390401, 4022224774, 264347078, 604807628,
   770255983, 1249150122, 1555081692, 1996064986,
   2554220882, 2821834349, 2952996808, 3210313671,
   3336571891, 3584528711, 113926993, 338241895,
   666307205, 773529912, 1294757372, 1396182291,
   1695183700, 1986661051, 2177026350, 2456956037,
   2730485921, 2820302411, 3259730800, 3345764771,
   3516065817, 3600352804, 4094571909, 275423344,
   430227734, 506948616, 659060556, 883997877,
   958139571, 1322822218, 1537002063, 1747873779,
   1955562222, 2024104815, 2227730452, 2361852424,
   2428436474, 2756734187, 3204031479, 3329325298]

/-- The eight 32-bit words of a SHA-256 hash state. -/
structure Sha8 where
  a : Nat
  b : Nat
  c : Nat
  d : Nat
  e : Nat
  f : Nat
  g : Nat
  h : Nat

/-- The SHA-256 initial hash state (FIPS 180-4, in decimal). -/
def shaInit : Sha8 :=
  ⟨1779033703, 3144134277, 1013904242, 2773480762,
   1359893119, 2600822924, 528734635, 1541459225⟩

/-- Message schedule small sigma 0. -/
def sig0 (x : Nat) : Nat := (rotr32 7 x) ^^^ (rotr32 18 x) ^^^ (x >>> 3)

/-- Message schedule small sigma 1. -/
def sig1 (x : Nat) : Nat := (rotr32 17 x) ^^^ (rotr32 19 x) ^^^ (x >>> 10)

/-- Extend the message schedule by `n` further words; `r` holds the words
produced so far, most recent first. -/
def shaExtend (r : List Nat) : Nat → List Nat
  | 0 => r
  | n + 1 =>
    shaExtend
      (((r.getD 15 0 + sig0 (r.getD 14 0) + r.getD 6 0 + sig1 (r.getD 1 0))
          % 2 ^ 32) :: r) n

/-- The 64-word message schedule of a 16-word chunk. -/
def shaSchedule (ws : List Nat) : List Nat := (shaExtend ws.reverse 48).reverse

/-- One SHA-256 compression round, consuming one (round constant, schedule
word) pair. -/
def shaStep (st : Sha8) (kw : Nat × Nat) : Sha8 :=
  let s1 := (rotr32 6 st.e) ^^^ (rotr32 11 st.e) ^^^ (rotr32 25 st.e)
  let ch := (st.e &&& st.f) ^^^ ((st.e ^^^ 0xffffffff) &&& st.g)
  let t1 := (st.h + s1 + ch + kw.1 + kw.2) % 2 ^ 32
  let s0 := (rotr32 2 st.a) ^^^ (rotr32 13 st.a) ^^^ (rotr32 22 st.a)
  let mj := (st.a &&& st.b) ^^^ (st.a &&& st.c) ^^^ (st.b &&& st.c)
  let t2 := (s0 + mj) % 2 ^ 32
  ⟨(t1 + t2) % 2 ^ 32, st.a, st.b, st.c, (st.d + t1) % 2 ^ 32, st.e, st.f,
    st.g⟩

/-- Process one 512-bit chunk (given as 16 words): run 64 compression
rounds and add the result into the running state. -/
def shaChunk (st : Sha8) (ws : List Nat) : Sha8 :=
  let t := (shaK.zip (shaSchedule ws)).foldl shaStep st
  ⟨(st.a + t.a) % 2 ^ 32, (st.b + t.b) % 2 ^ 32, (st.c + t.c) % 2 ^ 32,
   (st.d + t.d) % 2 ^ 32, (st.e + t.e) % 2 ^ 32, (st.f + t.f) % 2 ^ 32,
   (st.g + t.g) % 2 ^ 32, (st.h + t.h) % 2 ^ 32⟩

/-- The bit length of the message as eight big-endian bytes. -/
def shaLenBytes (n : Nat) : List Nat :=
  [n >>> 56 % 256, n >>> 48 % 256, n >>> 40 % 256, n >>> 32 % 256,
   n >>> 24 % 256, n >>> 16 % 256, n >>> 8 % 256, n % 256]

/-- SHA-256 padding: append `0x80`, zero bytes to reach 56 mod 64, then the
64-bit big-endian bit length. -/
def sha256Pad (msg : List Nat) : List Nat :=
  msg ++ [0x80] ++ List.replicate ((119 - msg.length % 64) % 64) 0
    ++ shaLenBytes (msg.length * 8)

/-- Split a byte list into chunks of (at most) 64 bytes. -/
def chunks64 (l : List Nat) : List (List Nat) :=
  match l with
  | [] => []
  | x :: xs => (x :: xs).take 64 :: chunks64 ((x :: xs).drop 64)
termination_by l.length
decreasing_by simp [List.length_drop]; omega

/-- Combine bytes into big-endian 32-bit words. -/
def bytesToWords : List Nat → List Nat
  | b0 :: b1 :: b2 :: b3 :: rest =>
    (b0 * 2 ^ 24 + b1 * 2 ^ 16 + b2 * 2 ^ 8 + b3) % 2 ^ 32 :: bytesToWords rest
  | _ => []

/-- Serialize a hash state to its 32 big-endian digest bytes. -/
def shaStateBytes (st : Sha8) : List Nat :=
  [st.a >>> 24 % 256, st.a >>> 16 % 256, st.a >>> 8 % 256, st.a % 256,
   st.b >>> 24 % 256, st.b >>> 16 % 256, st.b >>> 8 % 256, st.b % 256,
   st.c >>> 24 % 256, st.c >>> 16 % 256, st.c >>> 8 % 256, st.c % 256,
   st.d >>> 24 % 256, st.d >>> 16 % 256, st.d >>> 8 % 256, st.d % 256,
   st.e >>> 24 % 256, st.e >>> 16 % 256, st.e >>> 8 % 256, st.e % 256,
   st.f >>> 24 % 256, st.f >>> 16 % 256, st.f >>> 8 % 256, st.f % 256,
   st.g >>> 24 % 256, st.g >>> 16 % 256, st.g >>> 8 % 256, st.g % 256,
   st.h >>> 24 % 256, st.h >>> 16 % 256, st.h >>> 8 % 256, st.h % 256]

/-- Rust `Sha256::digest`: the SHA-256 digest (32 bytes) of a byte list. -/
def sha256 (msg : List Nat) : List Nat :=
  shaStateBytes
    ((chunks64 (sha256Pad msg)).foldl (fun st ch => shaChunk st (bytesToWords ch))
      shaInit)

/-- Uppercase hexadecimal digit. -/
def hexDigit (n : Nat) : Char := "0123456789ABCDEF".data.getD n '0'

/-- Uppercase hexadecimal rendering of a byte list. -/
def hexUpper (bytes : List Nat) : List Char :=
  bytes.foldr (fun b acc => hexDigit (b / 16 % 16) :: hexDigit (b % 16) :: acc) []

/-- An application signing key of one of the two supported schemes. Each
variant carries the scheme-specific serialized private-key bytes together
with the serialized bytes of the public key derived from it by `ref_to()`
(the derivation itself is external elliptic-curve code; the serialized pair
is taken as the datum). -/
inductive SecretKey where
  | ed25519 (sk pk : List Nat)
  | secp256k1 (sk pk : List Nat)

/-- The serialized public-key bytes of a signing key (`sk.ref_to()`
followed by `serialize_to_vec`). -/
def SecretKey.pubBytes : SecretKey → List Nat
  | .ed25519 _ pk => pk
  | .secp256k1 _ pk => pk

/-- Modelled from the spec: `tm_consensus_key_raw_hash` (external to this
module) renders the node-identity digest of the consensus public key in the
engine's textual address form — the uppercase hex encoding of the first 20
bytes of the SHA-256 digest of the serialized key. -/
def tm_consensus_key_raw_hash (pkBytes : List Nat) : List Char :=
  hexUpper ((sha256 pkBytes).take 20)

/-- The shape of the `priv_validator_key.json` document produced by
`validator_key_to_json`: the `address` string, and the `type`/`value`
string pairs of `pub_key` and `priv_key`. -/
structure ValidatorKeyJson where
  address : List Char
  pubKeyType : String
  pubKeyValue : List Char
  privKeyType : String
  privKeyValue : List Char
deriving DecidableEq

/-- Source `validator_key_to_json` (lines 219-252): scheme dispatch picks
the tag `"Ed25519"` or `"Secp256k1"`; for Ed25519 the key material is the
concatenation of private-key bytes and public-key bytes, for Secp256k1 it
is the private-key bytes alone; both `value` fields are base64 encoded,
and the type tags are `"tendermint/PubKey<tag>"` / `"tendermint/PrivKey<tag>"`. -/
def validator_key_to_json (sk : SecretKey) : ValidatorKeyJson :=
  let rawHash := tm_consensus_key_raw_hash sk.pubBytes
  match sk with
  | .ed25519 skb pkb =>
    { address := rawHash
      pubKeyType := "tendermint/PubKey" ++ "Ed25519"
      pubKeyValue := b64encode pkb
      privKeyType := "tendermint/PrivKey" ++ "Ed25519"
      privKeyValue := b64encode (skb ++ pkb) }
  | .secp256k1 skb pkb =>
    { address := rawHash
      pubKeyType := "tendermint/PubKey" ++ "Secp256k1"
      pubKeyValue := b64encode pkb
      privKeyType := "tendermint/PrivKey" ++ "Secp256k1"
      privKeyValue := b64encode skb }

/-- An application public key of one of the two supported schemes, carrying
its canonical scheme-specific serialization (`serialize_to_vec`). -/
inductive PublicKey where
  | ed25519 (ser : List Nat)
  | secp256k1 (ser : List Nat)
deriving DecidableEq

/-- The canonical serialized bytes of a public key. -/
def pkSerialize : PublicKey → List Nat
  | .ed25519 s => s
  | .secp256k1 s => s

/-- Length of a Tendermint node ID in bytes (`TENDERMINT_NODE_ID_LENGTH`). -/
def tendermintNodeIdLength : Nat := 20

/-- Source `id_from_pk` (lines 330-346): for either scheme, serialize the
public key, take the SHA-256 digest, and keep the first 20 bytes. -/
def id_from_pk (pk : PublicKey) : List Nat :=
  match pk with
  | .ed25519 s => (sha256 s).take tendermintNodeIdLength
  | .secp256k1 s => (sha256 s).take tendermintNodeIdLength

/-! ### Config patching -/

/-- The `[mempool]` fields of the engine config touched by this module,
plus an opaque remainder of untouched fields. -/
structure MempoolSection where
  keep_invalid_txs_in_cache : Bool
  max_tx_bytes : Nat
  max_txs_bytes : Nat
  size : Nat
  restMempool : List (String × String)
deriving DecidableEq

/-- The `[rpc]` fields touched by this module, plus an opaque remainder. -/
structure RpcSection where
  max_body_bytes : Nat
  restRpc : List (String × String)
deriving DecidableEq

/-- The `[consensus]` fields touched by this module, plus an opaque
remainder. -/
structure ConsensusSection where
  create_empty_blocks : Bool
  restConsensus : List (String × String)
deriving DecidableEq

/-- The engine configuration document (`TendermintConfig`), restricted to
the sections this module touches plus an opaque remainder. -/
structure TendermintConfig where
  moniker : String
  consensus : ConsensusSection
  mempool : MempoolSection
  rpc : RpcSection
  restConfig : List (String × String)
deriving DecidableEq

/-- Modelled from the spec: the host software version string
(`namada_version()`, external to this module) appended to the moniker. -/
def namada_version : String := "0.28.0"

/-- The in-memory patch applied by `update_tendermint_config` (source lines
348-392) before the document is re-serialized: version-suffixed moniker,
always create empty blocks, the four mempool overrides, and the RPC body
size bump. All other fields pass through. -/
def update_tendermint_config (config : TendermintConfig) : TendermintConfig :=
  { config with
    moniker := config.moniker ++ "-" ++ namada_version
    consensus := { config.consensus with create_empty_blocks := true }
    mempool :=
      { config.mempool with
        keep_invalid_txs_in_cache := false
        max_tx_bytes := 1024 * 1024
        max_txs_bytes := 50 * 6 * 1024 * 1024
        size := 4000 }
    rpc := { config.rpc with max_body_bytes := 2000000 } }

/-! ### Genesis patching -/

/-- Consensus block-size parameters of the genesis document
(`tendermint::block::Size`): `max_bytes`, `max_gas` and `time_iota_ms`
(the latter two are signed in the engine). -/
structure BlockSize where
  max_bytes : Nat
  max_gas : Int
  time_iota_ms : Int
deriving DecidableEq

/-- Modelled from the spec: the engine's default value of the
minimum-time-increment parameter (`block::Size::default_time_iota_ms()`,
external constant). -/
def default_time_iota_ms : Int := 1000

/-- The consensus parameters of the genesis document, restricted to the
block-size record this module overwrites plus an opaque remainder. -/
structure ConsensusParams where
  block : BlockSize
  restParams : List (String × String)
deriving DecidableEq

/-- The engine genesis document (`Genesis<Option<String>>`), restricted to
the fields this module touches plus an opaque remainder. `genesis_time` is
the engine's timestamp representation, modelled as nanoseconds since the
Unix epoch. -/
structure Genesis where
  chain_id : String
  genesis_time : Int
  consensus_params : ConsensusParams
  app_state : Option String
  restGenesis : List (String × String)
deriving DecidableEq

/-- Modelled from the spec: parsing the supplied chain identifier string
into the engine's chain-id type (`FromStr`, external); the identifier is
written into the genesis verbatim, and parsing fails only on an invalid
identifier (empty or longer than 50 characters). -/
def tm_chain_id_from_str (s : String) : Option String :=
  if 0 < s.length ∧ s.length ≤ 50 then some s else none

/-- Modelled from the spec: lower bound of the engine-representable
timestamp range (nanoseconds since epoch, year 1). -/
def tmTimeMin : Int := -62135596800000000000

/-- Modelled from the spec: upper bound of the engine-representable
timestamp range (nanoseconds since epoch, year 9999). -/
def tmTimeMax : Int := 253402300799999999999

/-- Modelled from the spec: conversion of the host UTC timestamp into the
engine's timestamp type (`DateTimeUtc::try_into`, external); lossless
within the engine-representable range, failing outside it. -/
def dateTimeToTmTime (t : Int) : Option Int :=
  if tmTimeMin ≤ t ∧ t ≤ tmTimeMax then some t else none

/-- The in-memory patch applied by `write_tm_genesis` (source lines
407-445) between reading and rewriting the genesis file: set the chain id
(parsed from the supplied identifier), the converted genesis time, and the
fixed block-size parameters (16 MiB max bytes, gas disabled with the `-1`
sentinel, default time iota). Chain-id parse or time conversion failure is
fatal in the source (`expect`), modelled as `none`. -/
def write_tm_genesis (g : Genesis) (chainId : String) (genesisTime : Int) :
    Option Genesis :=
  match tm_chain_id_from_str chainId, dateTimeToTmTime genesisTime with
  | some cid, some t =>
    some
      { g with
        chain_id := cid
        genesis_time := t
        consensus_params :=
          { g.consensus_params with
            block :=
              { max_bytes := 16 * 1024 * 1024
                max_gas := -1
                time_iota_ms := default_time_iota_ms } } }
  | _, _ => none

/-! ### Engine binary resolution and the supervisor -/

/-- The state of the `COMETBFT` environment variable: set to valid Unicode
text, unset, or set to a non-Unicode OS string (`VarError::NotUnicode`). -/
inductive EnvVarState where
  | set (val : String)
  | unset
  | notUnicode (raw : List Nat)
deriving DecidableEq

/-- Source `from_env_or_default` (lines 57-68): use the env var value
when present, fall back to `"cometbft"` when unset, and fail with
`Error::TendermintPath` when the value is not valid Unicode. -/
def from_env_or_default : EnvVarState → Except Error String
  | .set v => .ok v
  | .unset => .ok "cometbft"
  | .notUnicode raw => .error (.TendermintPath raw)

/-- An OS process exit status: whether it was successful, and its display
string (`status.to_string()`). -/
structure ExitStatus where
  success : Bool
  desc : String
deriving DecidableEq

/-- The first event to resolve in the supervisor's `select!` race: either
the child process terminated (with the result of waiting on it), or the
abort channel resolved first (`received = true` when a reply sender was
delivered, `false` when the sender was dropped without sending). -/
inductive RaceOutcome where
  | childExit (st : Except String ExitStatus)
  | abortFirst (received : Bool)

/-- A failure of the config-patching step's I/O or serialization. -/
inductive ConfigFailure where
  | openWrite (d : String)
  | serializeToml (d : String)
  | writeFail (d : String)
deriving DecidableEq

/-- Map a config-patch failure to the module error it is returned as. -/
def ConfigFailure.toError : ConfigFailure → Error
  | .openWrite d => .OpenWriteConfig d
  | .serializeToml d => .ConfigSerializeToml d
  | .writeFail d => .WriteConfig d

/-- The effectful steps of a supervised run, in program order. -/
inductive Event where
  | initCmd
  | patchGenesis
  | patchConfig
  | spawnStart
  | raceStart
  | killChild
  | sendReply
deriving DecidableEq

/-- How a supervised run ends: a normal return (`Ok(())`), a returned
error, or a process abort (`panic!`/`unwrap` failure). -/
inductive RunResult where
  | ok
  | err (e : Error)
  | fatal
deriving DecidableEq

/-- The outcomes of the external effects a supervised run performs, fixed
up front: the env-var state, the result of the `init` subcommand, whether
the genesis and config document rewrites succeed, whether the `start`
spawn succeeds, which race event resolves first, and whether the child
kill and the abort reply succeed. -/
structure RunEnv where
  cometbftVar : EnvVarState
  initResult : Except String ExitStatus
  genesisWriteOk : Bool
  configResult : Option ConfigFailure
  spawnResult : Option String
  race : RaceOutcome
  killOk : Bool
  replySendOk : Bool

/-- Source `run` (lines 71-153): resolve the engine binary, run `init`
(I/O failure is `Error::Init`, non-zero exit is fatal), patch the genesis
document (failure is fatal), patch the config document (failure is the
corresponding config error), spawn `start` (failure is
`Error::StartUp`), then race child termination against the abort channel:
child success returns `Ok`, child failure or wait failure is
`Error::Runtime`; an abort message kills the child and sends the reply
before returning `Ok`; a dropped abort sender kills the child and returns
`Ok` without replying. The second component is the trace of effectful
steps in program order. -/
def run (env : RunEnv) : RunResult × List Event :=
  match from_env_or_default env.cometbftVar with
  | .error e => (.err e, [])
  | .ok _ =>
    match env.initResult with
    | .error d => (.err (.Init d), [.initCmd])
    | .ok st =>
      if !st.success then (.fatal, [.initCmd])
      else if !env.genesisWriteOk then (.fatal, [.initCmd, .patchGenesis])
      else
        match env.configResult with
        | some cf => (.err cf.toError, [.initCmd, .patchGenesis, .patchConfig])
        | none =>
          match env.spawnResult with
          | some d =>
            (.err (.StartUp d),
              [.initCmd, .patchGenesis, .patchConfig, .spawnStart])
          | none =>
            match env.race with
            | .childExit (.ok cst) =>
              (if cst.success then .ok else .err (.Runtime cst.desc),
                [.initCmd, .patchGenesis, .patchConfig, .spawnStart,
                  .raceStart])
            | .childExit (.error d) =>
              (.err (.Runtime d),
                [.initCmd, .patchGenesis, .patchConfig, .spawnStart,
                  .raceStart])
            | .abortFirst true =>
              ((if env.killOk then
                  if env.replySendOk then .ok else .fatal
                else .fatal),
                if env.killOk then
                  [.initCmd, .patchGenesis, .patchConfig, .spawnStart,
                    .raceStart, .killChild, .sendReply]
                else
                  [.initCmd, .patchGenesis, .patchConfig, .spawnStart,
                    .raceStart, .killChild])
            | .abortFirst false =>
              ((if env.killOk then .ok else .fatal),
                [.initCmd, .patchGenesis, .patchConfig, .spawnStart,
                  .raceStart, .killChild])

/-- The set of traces a supervised run can produce: each element is a
prefix of the full successful trace, possibly extended by the abort-branch
kill and reply steps. -/
def traceSet : List (List Event) :=
  [[], [.initCmd], [.initCmd, .patchGenesis],
   [.initCmd, .patchGenesis, .patchConfig],
   [.initCmd, .patchGenesis, .patchConfig, .spawnStart],
   [.initCmd, .patchGenesis, .patchConfig, .spawnStart, .raceStart],
   [.initCmd, .patchGenesis, .patchConfig, .spawnStart, .raceStart,
     .killChild],
   [.initCmd, .patchGenesis, .patchConfig, .spawnStart, .raceStart,
     .killChild, .sendReply]]

deriving instance DecidableEq for Except

end TendermintNode

namespace TendermintNode

theorem ws_false_of_digit {c : Char} (h : c.isDigit = true) :
    isAsciiWhitespace c = false := by
  unfold isAsciiWhitespace
  rw [decide_eq_false_iff_not]
  rintro (rfl | rfl | rfl | rfl | rfl) <;> exact absurd h (by decide)

theorem dropWhile_append_ws (ws rest : List Char)
    (h : ∀ c ∈ ws, isAsciiWhitespace c = true) :
    (ws ++ rest).dropWhile isAsciiWhitespace =
      rest.dropWhile isAsciiWhitespace := by
  induction ws with
  | nil => rfl
  | cons c cs ih =>
    have hc := h c (by simp)
    simp only [List.cons_append, List.dropWhile_cons, hc, if_true]
    exact ih (fun x hx => h x (by simp [hx]))

theorem takeWhile_token (ds tail : List Char)
    (hds : ∀ c ∈ ds, isAsciiWhitespace c = false)
    (htail : ∀ c, tail.head? = some c → isAsciiWhitespace c = true) :
    (ds ++ tail).takeWhile (fun c => !isAsciiWhitespace c) = ds := by
  induction ds with
  | nil =>
    cases tail with
    | nil => rfl
    | cons t ts =>
      have ht := htail t rfl
      simp [List.takeWhile_cons, ht]
  | cons d ds' ih =>
    have hd := hds d (by simp)
    simp only [List.cons_append, List.takeWhile_cons, hd, Bool.not_false,
      if_true]
    rw [ih (fun c hc => hds c (by simp [hc]))]

theorem firstToken_eq (ws ds tail : List Char)
    (hws : ∀ c ∈ ws, isAsciiWhitespace c = true)
    (hne : ds ≠ [])
    (hds : ∀ c ∈ ds, isAsciiWhitespace c = false)
    (htail : ∀ c, tail.head? = some c → isAsciiWhitespace c = true) :
    firstToken (ws ++ ds ++ tail) = some ds := by
  unfold firstToken
  rw [List.append_assoc, dropWhile_append_ws ws _ hws]
  cases ds with
  | nil => exact absurd rfl hne
  | cons d ds' =>
    have hd := hds d (by simp)
    simp only [List.cons_append, List.dropWhile_cons, hd, Bool.false_eq_true,
      if_false]
    rw [show d :: (ds' ++ tail) = (d :: ds') ++ tail from rfl,
      takeWhile_token _ _ hds htail]
    simp

theorem foldl_digits_le (ds : List Char) (acc : Nat) :
    acc ≤ ds.foldl (fun a c => a * 10 + (c.toNat - 48)) acc := by
  induction ds generalizing acc with
  | nil => exact Nat.le_refl _
  | cons c cs ih =>
    calc acc ≤ acc * 10 + (c.toNat - 48) := by omega
    _ ≤ _ := ih _

theorem parseU64Core_digits (ds : List Char) (acc : Nat)
    (hds : ∀ c ∈ ds, c.isDigit = true)
    (hlt : ds.foldl (fun a c => a * 10 + (c.toNat - 48)) acc < 2 ^ 64) :
    parseU64Core ds acc =
      .ok (ds.foldl (fun a c => a * 10 + (c.toNat - 48)) acc) := by
  induction ds generalizing acc with
  | nil => rfl
  | cons c cs ih =>
    have hc := hds c (by simp)
    rw [List.foldl_cons] at hlt ⊢
    have hle := foldl_digits_le cs (acc * 10 + (c.toNat - 48))
    unfold parseU64Core
    simp only [hc, if_true]
    rw [if_pos (by omega)]
    exact ih _ (fun x hx => hds x (by simp [hx])) hlt

theorem parseU64_digits (ds : List Char) (hne : ds ≠ [])
    (hds : ∀ c ∈ ds, c.isDigit = true) (hlt : decimalValue ds < 2 ^ 64) :
    parseU64 ds = .ok (decimalValue ds) := by
  cases ds with
  | nil => exact absurd rfl hne
  | cons c cs =>
    have hc := hds c (by simp)
    have hplus : ¬(c = '+') := by
      rintro rfl; exact absurd hc (by decide)
    simp only [parseU64]
    rw [if_neg hplus]
    exact parseU64Core_digits _ 0 hds hlt

/-- C1 (counterexample): the claim asserts that the three failure modes of
rollback parsing are distinguishable from each other in the returned
error; but the phrase-not-found case and the missing-token case return
identical `Error::RollBack` values (the same
"Missing expected block height" message), so they are not
distinguishable. The first input lacks the phrase entirely; in the second
the phrase is present but followed by no token. -/
theorem rollback_parse_errors_not_distinct :
    splitOnce "engine produced no rollback line".data rollbackPhrase = none
    ∧ splitOnce "Rolled back state to height".data rollbackPhrase =
        some ([], [])
    ∧ firstToken [] = none
    ∧ rollback_parse "engine produced no rollback line".data =
        rollback_parse "Rolled back state to height".data
    ∧ rollback_parse "engine produced no rollback line".data =
        .error (.RollBack missingHeightMsg) :=
  ⟨rfl, rfl, rfl, rfl, rfl⟩

/-- C1 (amended): when the text after the first occurrence of the phrase
"Rolled back state to height" starts (after whitespace) with a decimal
token of value `N < 2 ^ 64`, the parsing step of `rollback` returns `N`
exactly; a string without the phrase and a string where the phrase is
followed by no token both yield the RollBack error with the
"Missing expected block height" message (these two cases are not
distinguishable from each other), while a non-numeric or out-of-range
first token yields the RollBack error with the integer-parse failure's
description, which differs from the missing-height message. -/
theorem rollback_parse_spec :
    (∀ stdout pre ws ds tail : List Char,
      splitOnce stdout rollbackPhrase = some (pre, ws ++ ds ++ tail) →
      (∀ c ∈ ws, isAsciiWhitespace c = true) →
      ds ≠ [] → (∀ c ∈ ds, c.isDigit = true) →
      (∀ c, tail.head? = some c → isAsciiWhitespace c = true) →
      decimalValue ds < 2 ^ 64 →
      rollback_parse stdout = .ok (decimalValue ds))
    ∧ (∀ stdout : List Char, splitOnce stdout rollbackPhrase = none →
        rollback_parse stdout = .error (.RollBack missingHeightMsg))
    ∧ (∀ stdout pre right : List Char,
        splitOnce stdout rollbackPhrase = some (pre, right) →
        firstToken right = none →
        rollback_parse stdout = .error (.RollBack missingHeightMsg))
    ∧ (∀ (stdout pre right tok : List Char) (e : ParseIntError),
        splitOnce stdout rollbackPhrase = some (pre, right) →
        firstToken right = some tok → parseU64 tok = .error e →
        rollback_parse stdout = .error (.RollBack (parseIntErrorDesc e)))
    ∧ (∀ e : ParseIntError, parseIntErrorDesc e ≠ missingHeightMsg) := by
  refine ⟨?_, ?_, ?_, ?_, ?_⟩
  · intro stdout pre ws ds tail hsplit hws hne hdig htail hlt
    have hds : ∀ c ∈ ds, isAsciiWhitespace c = false :=
      fun c hc => ws_false_of_digit (hdig c hc)
    have hft := firstToken_eq ws ds tail hws hne hds htail
    rw [List.append_assoc] at hft
    have hp := parseU64_digits ds hne hdig hlt
    simp [rollback_parse, hsplit, hft, hp]
  · intro stdout hsplit
    simp [rollback_parse, hsplit]
  · intro stdout pre right hsplit htok
    simp [rollback_parse, hsplit, htok]
  · intro stdout pre right tok e hsplit htok hparse
    simp [rollback_parse, hsplit, htok, hparse]
  · intro e
    cases e <;> decide

/-- C1 (witness): the amended theorem applied at concrete inputs — a
well-formed rollback line parses to height 42; a phrase-less line and a
token-less line yield the missing-height error; a non-numeric token
yields the invalid-digit error. -/
theorem rollback_parse_spec_witness :
    rollback_parse "INFO Rolled back state to height 42 and hash ABCD".data =
        .ok 42
    ∧ rollback_parse "engine said nothing useful".data =
        .error (.RollBack missingHeightMsg)
    ∧ rollback_parse "Rolled back state to height   ".data =
        .error (.RollBack missingHeightMsg)
    ∧ rollback_parse "Rolled back state to height xx".data =
        .error (.RollBack (parseIntErrorDesc .invalidDigit)) := by
  refine ⟨?_, ?_, ?_, ?_⟩
  · have h := rollback_parse_spec.1
      "INFO Rolled back state to height 42 and hash ABCD".data
      "INFO ".data [' '] ['4', '2'] " and hash ABCD".data
      (by decide) (by decide) (by decide) (by decide) (by decide) (by decide)
    rwa [show decimalValue ['4', '2'] = 42 from rfl] at h
  · exact rollback_parse_spec.2.1 "engine said nothing useful".data
      (by decide)
  · exact rollback_parse_spec.2.2.1 "Rolled back state to height   ".data
      [] "   ".data (by decide) (by decide)
  · exact rollback_parse_spec.2.2.2.1 "Rolled back state to height xx".data
      [] " xx".data "xx".data .invalidDigit (by decide) (by decide)
      (by decide)

/-- C10: when the captured rollback stdout bytes are not valid UTF-8, the
stdout-processing step returns `Error::RollBack` carrying the conversion
failure's description, and never returns a parsed height (the phrase
search and height parse are not reached). -/
theorem rollback_stdout_utf8_spec (bytes : List Nat) (e : Utf8Error)
    (h : utf8Decode bytes = .error e) :
    rollback_stdout bytes = .error (.RollBack (utf8ErrorDesc e))
    ∧ ∀ n : Nat, rollback_stdout bytes ≠ .ok n := by
  constructor
  · unfold rollback_stdout
    rw [h]
  · intro n hc
    unfold rollback_stdout at hc
    rw [h] at hc
    exact Except.noConfusion hc

/-- C10 (witness): the single byte `0xFF` is not valid UTF-8; the rollback
stdout processing maps it to the RollBack error with the conversion
failure's description. -/
theorem rollback_stdout_utf8_spec_witness :
    rollback_stdout [0xFF] = .error (.RollBack (utf8ErrorDesc ⟨0, some 1⟩))
    ∧ ∀ n : Nat, rollback_stdout [0xFF] ≠ .ok n :=
  rollback_stdout_utf8_spec [0xFF] ⟨0, some 1⟩ (by decide)

theorem b64dec_ch : ∀ i < 64, b64dec (b64ch i) = some i := by decide

theorem b64ch_ne_pad : ∀ i < 64, b64ch i ≠ '=' := by decide

theorem b64decode_encode :
    ∀ l : List Nat, (∀ x ∈ l, x < 256) → b64decode (b64encode l) = some l
  | [], _ => rfl
  | [a], h => by
    have ha : a < 256 := h a (by simp)
    have h1 : a / 4 < 64 := by omega
    have h2 : (a % 4) * 16 < 64 := by omega
    simp only [b64encode, b64decode, b64dec_ch _ h1, b64dec_ch _ h2]
    rw [if_pos (by simp)]
    have e0 : (a / 4) * 4 + ((a % 4) * 16) / 16 = a := by omega
    rw [e0]
  | [a, b], h => by
    have ha : a < 256 := h a (by simp)
    have hb : b < 256 := h b (by simp)
    have h1 : a / 4 < 64 := by omega
    have h2 : (a % 4) * 16 + b / 16 < 64 := by omega
    have h3 : (b % 16) * 4 < 64 := by omega
    simp only [b64encode, b64decode, b64dec_ch _ h1, b64dec_ch _ h2,
      b64dec_ch _ h3]
    rw [if_neg (fun hcon => b64ch_ne_pad _ h3 hcon.1),
      if_pos (by simp)]
    have e1 : (a / 4) * 4 + ((a % 4) * 16 + b / 16) / 16 = a := by omega
    have e2 : (((a % 4) * 16 + b / 16) % 16) * 16 + ((b % 16) * 4) / 4 = b := by
      omega
    rw [e1, e2]
  | a :: b :: c :: rest, h => by
    have ha : a < 256 := h a (by simp)
    have hb : b < 256 := h b (by simp)
    have hc : c < 256 := h c (by simp)
    have h1 : a / 4 < 64 := by omega
    have h2 : (a % 4) * 16 + b / 16 < 64 := by omega
    have h3 : (b % 16) * 4 + c / 64 < 64 := by omega
    have h4 : c % 64 < 64 := by omega
    have ih := b64decode_encode rest (fun x hx => h x (by simp [hx]))
    simp only [b64encode, b64decode, b64dec_ch _ h1, b64dec_ch _ h2,
      b64dec_ch _ h3, b64dec_ch _ h4]
    rw [if_neg (fun hcon => b64ch_ne_pad _ h3 hcon.1),
      if_neg (fun hcon => b64ch_ne_pad _ h4 hcon.1), ih]
    have e1 : (a / 4) * 4 + ((a % 4) * 16 + b / 16) / 16 = a := by omega
    have e2 : (((a % 4) * 16 + b / 16) % 16) * 16 + ((b % 16) * 4 + c / 64) / 4
        = b := by omega
    have e3 : (((b % 16) * 4 + c / 64) % 4) * 64 + c % 64 = c := by omega
    rw [Option.map_some']
    rw [e1, e2, e3]

/-- C4: for every signing key of either supported scheme, the key-material
translation tags `pub_key` with `"tendermint/PubKey<Scheme>"` and
`priv_key` with `"tendermint/PrivKey<Scheme>"`; the Ed25519 `priv_key`
value is the base64 encoding of the private-key bytes followed by the
public-key bytes (so it decodes to `len(private) + len(public)` bytes),
while the Secp256k1 `priv_key` value is the base64 encoding of the
private-key bytes alone. -/
theorem validator_key_to_json_spec (skb pkb : List Nat)
    (hsk : ∀ x ∈ skb, x < 256) (hpk : ∀ x ∈ pkb, x < 256) :
    ((validator_key_to_json (.ed25519 skb pkb)).pubKeyType =
        "tendermint/PubKeyEd25519"
      ∧ (validator_key_to_json (.ed25519 skb pkb)).privKeyType =
          "tendermint/PrivKeyEd25519"
      ∧ b64decode (validator_key_to_json (.ed25519 skb pkb)).pubKeyValue =
          some pkb
      ∧ b64decode (validator_key_to_json (.ed25519 skb pkb)).privKeyValue =
          some (skb ++ pkb)
      ∧ ∃ l, b64decode (validator_key_to_json (.ed25519 skb pkb)).privKeyValue
            = some l
          ∧ l.length = skb.length + pkb.length)
    ∧ ((validator_key_to_json (.secp256k1 skb pkb)).pubKeyType =
        "tendermint/PubKeySecp256k1"
      ∧ (validator_key_to_json (.secp256k1 skb pkb)).privKeyType =
          "tendermint/PrivKeySecp256k1"
      ∧ b64decode (validator_key_to_json (.secp256k1 skb pkb)).pubKeyValue =
          some pkb
      ∧ b64decode (validator_key_to_json (.secp256k1 skb pkb)).privKeyValue =
          some skb) := by
  have hcat : ∀ x ∈ skb ++ pkb, x < 256 := by
    intro x hx
    rcases List.mem_append.mp hx with h1 | h1
    · exact hsk x h1
    · exact hpk x h1
  refine ⟨⟨rfl, rfl, ?_, ?_, ?_⟩, rfl, rfl, ?_, ?_⟩
  · exact b64decode_encode pkb hpk
  · exact b64decode_encode (skb ++ pkb) hcat
  · exact ⟨skb ++ pkb, b64decode_encode (skb ++ pkb) hcat,
      List.length_append _ _⟩
  · exact b64decode_encode pkb hpk
  · exact b64decode_encode skb hsk

/-- C4 (witness): the translation theorem applied at a concrete key pair
(private bytes `[1, 2]`, public bytes `[3, 4, 5]`). -/
theorem validator_key_to_json_spec_witness :
    ((validator_key_to_json (.ed25519 [1, 2] [3, 4, 5])).pubKeyType =
        "tendermint/PubKeyEd25519"
      ∧ (validator_key_to_json (.ed25519 [1, 2] [3, 4, 5])).privKeyType =
          "tendermint/PrivKeyEd25519"
      ∧ b64decode
            (validator_key_to_json (.ed25519 [1, 2] [3, 4, 5])).pubKeyValue =
          some [3, 4, 5]
      ∧ b64decode
            (validator_key_to_json (.ed25519 [1, 2] [3, 4, 5])).privKeyValue =
          some ([1, 2] ++ [3, 4, 5])
      ∧ ∃ l,
          b64decode
              (validator_key_to_json (.ed25519 [1, 2] [3, 4, 5])).privKeyValue
            = some l
          ∧ l.length = List.length [1, 2] + List.length [3, 4, 5])
    ∧ ((validator_key_to_json (.secp256k1 [1, 2] [3, 4, 5])).pubKeyType =
        "tendermint/PubKeySecp256k1"
      ∧ (validator_key_to_json (.secp256k1 [1, 2] [3, 4, 5])).privKeyType =
          "tendermint/PrivKeySecp256k1"
      ∧ b64decode
            (validator_key_to_json (.secp256k1 [1, 2] [3, 4, 5])).pubKeyValue
          = some [3, 4, 5]
      ∧ b64decode
            (validator_key_to_json (.secp256k1 [1, 2] [3, 4, 5])).privKeyValue
          = some [1, 2]) :=
  validator_key_to_json_spec [1, 2] [3, 4, 5] (by decide) (by decide)

/-- C5: after the config patch, every document has
`keep_invalid_txs_in_cache = false`, `max_tx_bytes = 1 MiB`,
`max_txs_bytes = 50 * 6 MiB`, `size = 4000` and
`rpc.max_body_bytes = 2,000,000`, regardless of the pre-patch values. -/
theorem update_tendermint_config_spec (c : TendermintConfig) :
    (update_tendermint_config c).mempool.keep_invalid_txs_in_cache = false
    ∧ (update_tendermint_config c).mempool.max_tx_bytes = 1048576
    ∧ (update_tendermint_config c).mempool.max_txs_bytes = 50 * 6 * 1048576
    ∧ (update_tendermint_config c).mempool.size = 4000
    ∧ (update_tendermint_config c).rpc.max_body_bytes = 2000000 :=
  ⟨rfl, rfl, rfl, rfl, rfl⟩

/-- C6: for every genesis document, valid chain identifier and convertible
genesis time, the genesis patch sets `chain_id` to the supplied identifier,
`genesis_time` to the converted timestamp, block `max_bytes` to
16,777,216, `max_gas` to the `-1` disabled-gas sentinel, and
`time_iota_ms` to the engine's default. -/
theorem write_tm_genesis_spec (g : Genesis) (cid : String) (t t' : Int)
    (hcid : tm_chain_id_from_str cid = some cid)
    (ht : dateTimeToTmTime t = some t') :
    ∃ g', write_tm_genesis g cid t = some g'
      ∧ g'.chain_id = cid
      ∧ g'.genesis_time = t'
      ∧ g'.consensus_params.block.max_bytes = 16777216
      ∧ g'.consensus_params.block.max_gas = -1
      ∧ g'.consensus_params.block.time_iota_ms = default_time_iota_ms := by
  unfold write_tm_genesis
  rw [hcid, ht]
  exact ⟨_, rfl, rfl, rfl, rfl, rfl, rfl⟩

/-- C6 (witness): the genesis-patch theorem applied at a concrete genesis
document, the chain id `"test-chain"` and timestamp `0`. -/
theorem write_tm_genesis_spec_witness :
    ∃ g', write_tm_genesis ⟨"old", 7, ⟨⟨1, 2, 3⟩, []⟩, none, []⟩ "test-chain" 0
        = some g'
      ∧ g'.chain_id = "test-chain"
      ∧ g'.genesis_time = 0
      ∧ g'.consensus_params.block.max_bytes = 16777216
      ∧ g'.consensus_params.block.max_gas = -1
      ∧ g'.consensus_params.block.time_iota_ms = default_time_iota_ms :=
  write_tm_genesis_spec ⟨"old", 7, ⟨⟨1, 2, 3⟩, []⟩, none, []⟩ "test-chain" 0 0
    (by decide) (by decide)

theorem sha256_length (msg : List Nat) : (sha256 msg).length = 32 := rfl

/-- C7: node-identity derivation returns exactly 20 bytes for every public
key of either scheme, and is exactly the first 20 bytes of the SHA-256
digest of the key's canonical serialization; it is deterministic: equal
keys yield equal identifiers. -/
theorem id_from_pk_spec (pk pk2 : PublicKey) (heq : pk = pk2) :
    (id_from_pk pk).length = 20
    ∧ id_from_pk pk = (sha256 (pkSerialize pk)).take 20
    ∧ id_from_pk pk = id_from_pk pk2 := by
  subst heq
  refine ⟨?_, ?_, rfl⟩
  · cases pk <;>
      simp [id_from_pk, tendermintNodeIdLength, List.length_take,
        sha256_length]
  · cases pk <;> rfl

/-- C7 (witness): the derivation theorem applied at a concrete Ed25519
public key with serialized bytes `[1, 2, 3]`. -/
theorem id_from_pk_spec_witness :
    (id_from_pk (.ed25519 [1, 2, 3])).length = 20
    ∧ id_from_pk (.ed25519 [1, 2, 3]) =
        (sha256 (pkSerialize (.ed25519 [1, 2, 3]))).take 20
    ∧ id_from_pk (.ed25519 [1, 2, 3]) = id_from_pk (.ed25519 [1, 2, 3]) :=
  id_from_pk_spec (.ed25519 [1, 2, 3]) (.ed25519 [1, 2, 3]) rfl

/-- C9: engine-binary-path resolution returns the environment variable's
value when set to valid text, the default `"cometbft"` when unset, and the
`TendermintPath` error when set but not valid Unicode. -/
theorem from_env_or_default_spec :
    (∀ v : String, from_env_or_default (.set v) = .ok v)
    ∧ from_env_or_default .unset = .ok "cometbft"
    ∧ (∀ raw : List Nat,
        from_env_or_default (.notUnicode raw) = .error (.TendermintPath raw)) :=
  ⟨fun _ => rfl, rfl, fun _ => rfl⟩

/-- C2: in a supervised run that reaches the race, when the child
terminates before any abort event: a successful exit status makes `run`
return `Ok(())`; an unsuccessful exit status makes it return the Runtime
error carrying the status description; a failure of the wait itself makes
it return the Runtime error carrying that failure's description. -/
theorem run_child_exit_spec (v : EnvVarState) (p : String)
    (st0 cst : ExitStatus) (k r : Bool) (d : String)
    (henv : from_env_or_default v = .ok p) (hinit : st0.success = true) :
    ((run ⟨v, .ok st0, true, none, none, .childExit (.ok cst), k, r⟩).1 =
        if cst.success then .ok else .err (.Runtime cst.desc))
    ∧ (run ⟨v, .ok st0, true, none, none, .childExit (.error d), k, r⟩).1 =
        .err (.Runtime d) := by
  constructor <;> (unfold run; rw [henv]; simp [hinit])

/-- C2 (witness): the child-exit theorem applied with the env var unset
and a child exiting with a failure status. -/
theorem run_child_exit_spec_witness :
    ((run ⟨.unset, .ok ⟨true, "exit status: 0"⟩, true, none, none,
        .childExit (.ok ⟨false, "exit status: 1"⟩), true, true⟩).1 =
        if (false : Bool) then .ok
        else .err (.Runtime (ExitStatus.desc ⟨false, "exit status: 1"⟩)))
    ∧ (run ⟨.unset, .ok ⟨true, "exit status: 0"⟩, true, none, none,
        .childExit (.error "wait failed"), true, true⟩).1 =
        .err (.Runtime "wait failed") :=
  run_child_exit_spec .unset "cometbft" ⟨true, "exit status: 0"⟩
    ⟨false, "exit status: 1"⟩ true true "wait failed" rfl rfl

/-- C3: in a supervised run that reaches the race, when the abort channel
resolves first with a reply sender (and the kill and send succeed), `run`
kills the child, sends exactly one acknowledgment after the kill, and
returns `Ok(())`; when the abort channel reports its sender dropped (and
the kill succeeds), `run` kills the child and returns `Ok(())` without
any reply. -/
theorem run_abort_spec (v : EnvVarState) (p : String) (st0 : ExitStatus)
    (r : Bool)
    (henv : from_env_or_default v = .ok p) (hinit : st0.success = true) :
    ((run ⟨v, .ok st0, true, none, none, .abortFirst true, true, true⟩).1 =
        .ok
      ∧ (run ⟨v, .ok st0, true, none, none, .abortFirst true, true,
            true⟩).2.count .killChild = 1
      ∧ (run ⟨v, .ok st0, true, none, none, .abortFirst true, true,
            true⟩).2.count .sendReply = 1
      ∧ (run ⟨v, .ok st0, true, none, none, .abortFirst true, true,
            true⟩).2.indexOf .killChild <
          (run ⟨v, .ok st0, true, none, none, .abortFirst true, true,
            true⟩).2.indexOf .sendReply)
    ∧ ((run ⟨v, .ok st0, true, none, none, .abortFirst false, true, r⟩).1 =
        .ok
      ∧ Event.killChild ∈
          (run ⟨v, .ok st0, true, none, none, .abortFirst false, true, r⟩).2
      ∧ Event.sendReply ∉
          (run ⟨v, .ok st0, true, none, none, .abortFirst false, true,
            r⟩).2) := by
  have h1 : run ⟨v, .ok st0, true, none, none, .abortFirst true, true, true⟩ =
      (.ok, [.initCmd, .patchGenesis, .patchConfig, .spawnStart, .raceStart,
        .killChild, .sendReply]) := by
    unfold run; rw [henv]; simp [hinit]
  have h2 : run ⟨v, .ok st0, true, none, none, .abortFirst false, true, r⟩ =
      (.ok, [.initCmd, .patchGenesis, .patchConfig, .spawnStart, .raceStart,
        .killChild]) := by
    unfold run; rw [henv]; simp [hinit]
  rw [h1, h2]
  decide

/-- C3 (witness): the abort theorem applied with the env var unset and a
successful init status. -/
theorem run_abort_spec_witness :
    ((run ⟨.unset, .ok ⟨true, "exit status: 0"⟩, true, none, none,
          .abortFirst true, true, true⟩).1 = .ok
      ∧ (run ⟨.unset, .ok ⟨true, "exit status: 0"⟩, true, none, none,
            .abortFirst true, true, true⟩).2.count .killChild = 1
      ∧ (run ⟨.unset, .ok ⟨true, "exit status: 0"⟩, true, none, none,
            .abortFirst true, true, true⟩).2.count .sendReply = 1
      ∧ (run ⟨.unset, .ok ⟨true, "exit status: 0"⟩, true, none, none,
            .abortFirst true, true, true⟩).2.indexOf .killChild <
          (run ⟨.unset, .ok ⟨true, "exit status: 0"⟩, true, none, none,
            .abortFirst true, true, true⟩).2.indexOf .sendReply)
    ∧ ((run ⟨.unset, .ok ⟨true, "exit status: 0"⟩, true, none, none,
          .abortFirst false, true, false⟩).1 = .ok
      ∧ Event.killChild ∈
          (run ⟨.unset, .ok ⟨true, "exit status: 0"⟩, true, none, none,
            .abortFirst false, true, false⟩).2
      ∧ Event.sendReply ∉
          (run ⟨.unset, .ok ⟨true, "exit status: 0"⟩, true, none, none,
            .abortFirst false, true, false⟩).2) :=
  run_abort_spec .unset "cometbft" ⟨true, "exit status: 0"⟩ false rfl rfl

theorem run_trace_cases (env : RunEnv) : (run env).2 ∈ traceSet := by
  unfold run
  repeat' split
  all_goals simp [traceSet]

/-- C8: in every supervised run whose trace reaches the spawn step, the
genesis document is patched exactly once and the config document is
patched exactly once, both strictly before the spawn; and whenever the
race is reached, the spawn strictly precedes it. -/
theorem run_patch_once_before_spawn (env : RunEnv)
    (h : Event.spawnStart ∈ (run env).2) :
    (run env).2.count .patchGenesis = 1
    ∧ (run env).2.count .patchConfig = 1
    ∧ (run env).2.indexOf .patchGenesis < (run env).2.indexOf .spawnStart
    ∧ (run env).2.indexOf .patchConfig < (run env).2.indexOf .spawnStart
    ∧ (Event.raceStart ∈ (run env).2 →
        (run env).2.indexOf .spawnStart < (run env).2.indexOf .raceStart) := by
  have hmem := run_trace_cases env
  simp only [traceSet, List.mem_cons, List.not_mem_nil, or_false] at hmem
  rcases hmem with h1 | h1 | h1 | h1 | h1 | h1 | h1 | h1 <;>
    rw [h1] at h ⊢ <;> revert h <;> decide

/-- C8 (witness): the ordering theorem applied at a concrete environment
whose run reaches the spawn and the race. -/
theorem run_patch_once_before_spawn_witness :
    (run ⟨.unset, .ok ⟨true, "exit status: 0"⟩, true, none, none,
        .childExit (.ok ⟨true, "exit status: 0"⟩), true, true⟩).2.count
        .patchGenesis = 1
    ∧ (run ⟨.unset, .ok ⟨true, "exit status: 0"⟩, true, none, none,
        .childExit (.ok ⟨true, "exit status: 0"⟩), true, true⟩).2.count
        .patchConfig = 1
    ∧ (run ⟨.unset, .ok ⟨true, "exit status: 0"⟩, true, none, none,
        .childExit (.ok ⟨true, "exit status: 0"⟩), true,
        true⟩).2.indexOf .patchGenesis <
        (run ⟨.unset, .ok ⟨true, "exit status: 0"⟩, true, none, none,
          .childExit (.ok ⟨true, "exit status: 0"⟩), true,
          true⟩).2.indexOf .spawnStart
    ∧ (run ⟨.unset, .ok ⟨true, "exit status: 0"⟩, true, none, none,
        .childExit (.ok ⟨true, "exit status: 0"⟩), true,
        true⟩).2.indexOf .patchConfig <
        (run ⟨.unset, .ok ⟨true, "exit status: 0"⟩, true, none, none,
          .childExit (.ok ⟨true, "exit status: 0"⟩), true,
          true⟩).2.indexOf .spawnStart
    ∧ (Event.raceStart ∈
        (run ⟨.unset, .ok ⟨true, "exit status: 0"⟩, true, none, none,
          .childExit (.ok ⟨true, "exit status: 0"⟩), true, true⟩).2 →
        (run ⟨.unset, .ok ⟨true, "exit status: 0"⟩, true, none, none,
          .childExit (.ok ⟨true, "exit status: 0"⟩), true,
          true⟩).2.indexOf .spawnStart <
          (run ⟨.unset, .ok ⟨true, "exit status: 0"⟩, true, none, none,
            .childExit (.ok ⟨true, "exit status: 0"⟩), true,
            true⟩).2.indexOf .raceStart) :=
  run_patch_once_before_spawn
    ⟨.unset, .ok ⟨true, "exit status: 0"⟩, true, none, none,
      .childExit (.ok ⟨true, "exit status: 0"⟩), true, true⟩ (by decide)

end TendermintNode
